import Mathlib

/-!
Verification development for a minimal desktop overlay application
consisting of a Visibility Controller (a show/hide window state machine
driven by a global hotkey and two bridge commands) and a Chat Relay
(one HTTPS POST to a chat-completions endpoint whose outcome is
normalized into a uniform success/failure result shape).

The definitions below are a shallow embedding of the main-process
source file: the window event handlers and the chat-request handler,
together with the JavaScript value model needed to express the
dynamic member accesses the handler performs on the parsed JSON body.
-/

/-- Model of a JavaScript runtime value as produced by JSON parsing and
by member access (which can additionally yield undefined). -/
inductive JsVal where
  | undef
  | null
  | bool (b : Bool)
  | num (n : Int)
  | str (s : String)
  | arr (xs : List JsVal)
  | obj (fields : List (String × JsVal))

/-- JavaScript truthiness: undefined, null, false, 0 and the empty
string are falsy; every array and object is truthy. -/
def truthy : JsVal → Bool
  | .undef => false
  | .null => false
  | .bool b => b
  | .num n => n != 0
  | .str s => s != ""
  | .arr _ => true
  | .obj _ => true

/-- Association-list field lookup; a missing field reads as undefined. -/
def lookupField : List (String × JsVal) → String → JsVal
  | [], _ => .undef
  | (k, v) :: rest, key => if k = key then v else lookupField rest key

mutual

/-- JavaScript string conversion, as performed by the Error constructor
on a non-string argument. -/
def jsToString : JsVal → String
  | .undef => "undefined"
  | .null => "null"
  | .bool true => "true"
  | .bool false => "false"
  | .num n => toString n
  | .str s => s
  | .arr xs => jsListToString xs
  | .obj _ => "[object Object]"

/-- Array-to-string: elements joined by commas, with null and undefined
elements rendered as the empty string. -/
def jsListToString : List JsVal → String
  | [] => ""
  | [JsVal.undef] => ""
  | [JsVal.null] => ""
  | [v] => jsToString v
  | JsVal.undef :: rest => "," ++ jsListToString rest
  | JsVal.null :: rest => "," ++ jsListToString rest
  | v :: rest => jsToString v ++ "," ++ jsListToString rest

end

/-- Named member access, as in the expression data.error: throws a
TypeError on undefined and null, reads a field on objects, and yields
undefined on the remaining primitives and on arrays. -/
def getProp : JsVal → String → Except String JsVal
  | .undef, k => .error ("Cannot read properties of undefined (reading " ++ k ++ ")")
  | .null, k => .error ("Cannot read properties of null (reading " ++ k ++ ")")
  | .obj fields, k => .ok (lookupField fields k)
  | _, _ => .ok (.undef)

/-- Indexed member access, as in the expression choices[0]: throws a
TypeError on undefined and null, indexes arrays and strings, looks up
the numeral key on objects, and yields undefined otherwise. -/
def getIndex : JsVal → Nat → Except String JsVal
  | .undef, i => .error ("Cannot read properties of undefined (reading " ++ toString i ++ ")")
  | .null, i => .error ("Cannot read properties of null (reading " ++ toString i ++ ")")
  | .arr xs, i => .ok ((xs.get? i).getD .undef)
  | .obj fields, i => .ok (lookupField fields (toString i))
  | .str s, i => .ok (((s.toList.get? i).map fun c => JsVal.str (String.singleton c)).getD .undef)
  | _, _ => .ok (.undef)

/-- Outcome of the await fetch / await response.json() pair: the fetch
promise rejects on a network-level failure, the json() promise rejects
on an unparseable body, and otherwise a status code and parsed body are
available.  The handler in the source never consults the status. -/
inductive FetchOutcome where
  | networkError (msg : String)
  | jsonError (msg : String)
  | ok (status : Nat) (data : JsVal)

/-- Normalized result shape returned across the bridge by the
chat-request handler: on success the message field carries the value of
data.choices[0].message.content (possibly undefined), on failure the
error field carries the caught error message. -/
inductive ChatResult where
  | success (message : JsVal)
  | failure (error : String)

/-- Discriminator for the failure branch of ChatResult. -/
def ChatResult.isFailure : ChatResult → Bool
  | .success _ => false
  | .failure _ => true

/-- Evaluation of the member chain data.choices[0].message.content from
the success return of the handler; any step on undefined or null
throws. -/
def extractReply (data : JsVal) : Except String JsVal :=
  match getProp data "choices" with
  | .error msg => .error msg
  | .ok ch =>
    match getIndex ch 0 with
    | .error msg => .error msg
    | .ok c0 =>
      match getProp c0 "message" with
      | .error msg => .error msg
      | .ok mv => getProp mv "content"

/-- Body of the try block of the chat-request handler, for a given
fetch outcome: rethrow transport and parse rejections, throw the
upstream message (or the generic "API Error") when data.error is
truthy, and otherwise evaluate the success member chain.  The status
code is ignored, exactly as in the source. -/
def relayBody : FetchOutcome → Except String JsVal
  | .networkError msg => .error msg
  | .jsonError msg => .error msg
  | .ok _ data =>
    match getProp data "error" with
    | .error msg => .error msg
    | .ok e =>
      if truthy e then
        match getProp e "message" with
        | .error msg => .error msg
        | .ok mv => .error (if truthy mv then jsToString mv else "API Error")
      else extractReply data

/-- The outbound HTTPS request assembled by the handler. -/
structure HttpRequest where
  url : String
  method : String
  headers : List (String × String)
  body : JsVal

/-- The fixed request the handler issues for a given message and
credential: endpoint, method, the four headers, and the JSON body with
the fixed model identifier and the single user-role message. -/
def buildRequest (message apiKey : String) : HttpRequest :=
  ⟨"https://openrouter.ai/api/v1/chat/completions",
   "POST",
   [("Authorization", "Bearer " ++ apiKey),
    ("Content-Type", "application/json"),
    ("HTTP-Referer", "http://localhost"),
    ("X-Title", "Desktop AI Chatbot")],
   .obj [("model", .str "openai/gpt-3.5-turbo"),
         ("messages", .arr [.obj [("role", .str "user"),
                                  ("content", .str message)]])]⟩

/-- The complete chat-request handler: it unconditionally builds and
issues the request (no local validation of message or credential), and
normalizes the outcome through the try/catch into a ChatResult. -/
def chatRequestHandler (message apiKey : String) (outcome : FetchOutcome) :
    HttpRequest × ChatResult :=
  (buildRequest message apiKey,
   match relayBody outcome with
   | .ok v => ChatResult.success v
   | .error e => ChatResult.failure e)

/-- The bridge operation exposed to the display layer: the normalized
result of the chat-request handler. -/
def sendChat (message apiKey : String) (outcome : FetchOutcome) : ChatResult :=
  (chatRequestHandler message apiKey outcome).2

/-- Logical visibility state of the single overlay window. -/
inductive WinState where
  | visible
  | hidden
deriving DecidableEq

/-- The global hotkey callback: hide when visible, show (and focus)
when hidden. -/
def toggle : WinState → WinState
  | .visible => .hidden
  | .hidden => .visible

/-- Process-level state relevant to the window lifecycle handlers. -/
structure AppState where
  win : WinState
  minimized : Bool
  isQuitting : Bool
  terminated : Bool
deriving DecidableEq

/-- The close event handler on the window: when the quit-intent flag is
unset the default close is prevented and the window is hidden; when it
is set the close proceeds and the process terminates. -/
def onClose (s : AppState) : AppState :=
  if s.isQuitting then { s with terminated := true }
  else { s with win := .hidden }

/-- The minimize-window bridge command. -/
def minimizeCmd (s : AppState) : AppState := { s with minimized := true }

/-- The close-window bridge command: it hides the window
unconditionally, consulting nothing. -/
def closeWindowCmd (s : AppState) : AppState := { s with win := .hidden }

/-- The before-quit lifecycle handler: records quit intent. -/
def beforeQuit (s : AppState) : AppState := { s with isQuitting := true }

/-- The hotkey callback lifted to the process state. -/
def hotkeyToggle (s : AppState) : AppState := { s with win := toggle s.win }

/-- Console output of the startup registration step: a failure is
reported and nothing else happens. -/
def registrationLog (ret : Bool) : List String :=
  if ret then [] else ["Registration failed"]

/-- Events the main process reacts to.  The hotkey event only has an
effect when registration succeeded; every other path is registered
unconditionally at module load. -/
inductive AppEvent where
  | hotkey
  | minimizeWindow
  | closeWindow
  | windowClose
  | quitSignal
  | chatRequest (message apiKey : String) (outcome : FetchOutcome)

/-- One step of the application: dispatch an event against the current
state, producing the next state and, for a chat request, the bridge
response. -/
def appStep (hotkeyRegistered : Bool) : AppEvent → AppState → AppState × Option ChatResult
  | .hotkey, s => (if hotkeyRegistered then hotkeyToggle s else s, none)
  | .minimizeWindow, s => (minimizeCmd s, none)
  | .closeWindow, s => (closeWindowCmd s, none)
  | .windowClose, s => (onClose s, none)
  | .quitSignal, s => (beforeQuit s, none)
  | .chatRequest m k o, s => (s, some (sendChat m k o))

/-! ### Helper lemmas -/

theorem append3_ne_empty (p k s : String) (hp : 0 < p.length) : p ++ k ++ s ≠ "" := by
  intro hc
  have hl := congrArg String.length hc
  rw [String.length_append, String.length_append] at hl
  simp at hl
  omega

theorem getProp_error_nonempty (v : JsVal) (k m : String)
    (h : getProp v k = .error m) : m ≠ "" := by
  cases v <;> simp [getProp] at h
  all_goals
    rw [← h]
    exact append3_ne_empty _ _ _ (by decide)

theorem getIndex_error_nonempty (v : JsVal) (i : Nat) (m : String)
    (h : getIndex v i = .error m) : m ≠ "" := by
  cases v <;> simp [getIndex] at h
  all_goals
    rw [← h]
    exact append3_ne_empty _ _ _ (by decide)

theorem extractReply_error_nonempty (data : JsVal) (m : String)
    (h : extractReply data = .error m) : m ≠ "" := by
  cases hch : getProp data "choices" with
  | error msg =>
    simp only [extractReply, hch, Except.error.injEq] at h
    exact h ▸ getProp_error_nonempty _ _ _ hch
  | ok ch =>
    cases h0 : getIndex ch 0 with
    | error msg =>
      simp only [extractReply, hch, h0, Except.error.injEq] at h
      exact h ▸ getIndex_error_nonempty _ _ _ h0
    | ok c0 =>
      cases hm : getProp c0 "message" with
      | error msg =>
        simp only [extractReply, hch, h0, hm, Except.error.injEq] at h
        exact h ▸ getProp_error_nonempty _ _ _ hm
      | ok mv =>
        simp only [extractReply, hch, h0, hm] at h
        exact getProp_error_nonempty _ _ _ h

/-! ### Claim theorems -/

/-- Claim C1: for every input and every outcome of the HTTPS exchange,
the chat-request handler returns a normalized success-or-failure
result (nothing propagates past the relay boundary), and for a
network-level failure it returns a failure whose error message is the
non-empty transport message. -/
theorem sendChat_normalizes (message apiKey msg : String) (h : msg ≠ "") :
    (∀ o : FetchOutcome,
      (∃ v, sendChat message apiKey o = ChatResult.success v) ∨
      (∃ e, sendChat message apiKey o = ChatResult.failure e)) ∧
    sendChat message apiKey (.networkError msg) = ChatResult.failure msg ∧
    msg ≠ "" := by
  refine ⟨?_, rfl, h⟩
  intro o
  cases hr : relayBody o with
  | ok v => exact Or.inl ⟨v, by simp [sendChat, chatRequestHandler, hr]⟩
  | error e => exact Or.inr ⟨e, by simp [sendChat, chatRequestHandler, hr]⟩

theorem sendChat_normalizes_witness :
    (∀ o : FetchOutcome,
      (∃ v, sendChat "hello" "sk-key" o = ChatResult.success v) ∨
      (∃ e, sendChat "hello" "sk-key" o = ChatResult.failure e)) ∧
    sendChat "hello" "sk-key" (.networkError "connect ECONNREFUSED 104.18.2.115:443") =
      ChatResult.failure "connect ECONNREFUSED 104.18.2.115:443" ∧
    "connect ECONNREFUSED 104.18.2.115:443" ≠ "" :=
  sendChat_normalizes "hello" "sk-key" "connect ECONNREFUSED 104.18.2.115:443" (by decide)

/-- Claim C2: applying the hotkey toggle n times starting from Hidden
leaves the window Visible when n is odd and Hidden when n is even. -/
theorem toggle_parity (n : Nat) :
    toggle^[n] WinState.hidden =
      (if n % 2 = 1 then WinState.visible else WinState.hidden) := by
  induction n with
  | zero => rfl
  | succ n ih =>
    rw [Function.iterate_succ_apply', ih]
    rcases Nat.mod_two_eq_zero_or_one n with h | h
    · have h2 : (n + 1) % 2 = 1 := by omega
      simp [h, h2, toggle]
    · have h2 : (n + 1) % 2 = 0 := by omega
      simp [h, h2, toggle]

/-- Claim C3: a window close request with the quit-intent flag unset
hides the window and never terminates the process; with the flag set
(for instance by a prior before-quit signal) the close proceeds and the
process terminates. -/
theorem onClose_quit_intent (s : AppState) :
    (s.isQuitting = false →
      (onClose s).win = WinState.hidden ∧ (onClose s).terminated = s.terminated) ∧
    (s.isQuitting = true → (onClose s).terminated = true) ∧
    (onClose (beforeQuit s)).terminated = true := by
  refine ⟨fun h => ?_, fun h => ?_, ?_⟩
  · simp [onClose, h]
  · simp [onClose, h]
  · simp [onClose, beforeQuit]

theorem onClose_quit_intent_witness :
    (onClose ⟨WinState.visible, false, false, false⟩).win = WinState.hidden ∧
    (onClose ⟨WinState.visible, false, true, false⟩).terminated = true :=
  ⟨((onClose_quit_intent ⟨WinState.visible, false, false, false⟩).1 rfl).1,
   (onClose_quit_intent ⟨WinState.visible, false, true, false⟩).2.1 rfl⟩

/-- Claim C4: for every upstream body with no (truthy) error object in
which the chain choices[0].message.content evaluates to a value, the
handler returns success carrying exactly that value. -/
theorem sendChat_success_content (message apiKey : String) (st : Nat)
    (data e ch c0 mv v : JsVal)
    (he : getProp data "error" = .ok e) (hte : truthy e = false)
    (hch : getProp data "choices" = .ok ch) (h0 : getIndex ch 0 = .ok c0)
    (hm : getProp c0 "message" = .ok mv) (hc : getProp mv "content" = .ok v) :
    sendChat message apiKey (.ok st data) = ChatResult.success v := by
  simp [sendChat, chatRequestHandler, relayBody, extractReply, he, hte, hch, h0, hm, hc]

def helloBody : JsVal :=
  .obj [("id", .str "gen-1"),
        ("choices", .arr [.obj [("message",
          .obj [("role", .str "assistant"), ("content", .str "Hello!")])]])]

theorem sendChat_success_content_witness :
    sendChat "Hi" "sk-key" (.ok 200 helloBody) = ChatResult.success (JsVal.str "Hello!") :=
  sendChat_success_content "Hi" "sk-key" 200 helloBody JsVal.undef
    (.arr [.obj [("message", .obj [("role", .str "assistant"), ("content", .str "Hello!")])]])
    (.obj [("message", .obj [("role", .str "assistant"), ("content", .str "Hello!")])])
    (.obj [("role", .str "assistant"), ("content", .str "Hello!")])
    (.str "Hello!") rfl rfl rfl rfl rfl rfl

def statusBody : JsVal :=
  .obj [("choices", .arr [.obj [("message", .obj [("content", .str "Hello!")])]])]

/-- Counterexample to claim C5 as stated: a non-2xx (here 500) response
whose body is a well-formed success body yields Success, not Failure,
because the handler never consults the HTTP status. -/
theorem sendChat_non2xx_success_cx :
    sendChat "q" "k" (.ok 500 statusBody) = ChatResult.success (JsVal.str "Hello!") ∧
    (sendChat "q" "k" (.ok 500 statusBody)).isFailure = false :=
  ⟨rfl, rfl⟩

/-- Claim C5 (amended): for every upstream body containing a truthy
error object, the handler returns failure carrying the upstream error
message when it is truthy, and the generic string "API Error"
otherwise; the HTTP status is not consulted. -/
theorem sendChat_error_object (message apiKey : String) (st : Nat) (data e mv : JsVal)
    (he : getProp data "error" = .ok e) (hte : truthy e = true)
    (hm : getProp e "message" = .ok mv) :
    sendChat message apiKey (.ok st data) =
      ChatResult.failure (if truthy mv then jsToString mv else "API Error") := by
  simp [sendChat, chatRequestHandler, relayBody, he, hte, hm]

def invalidKeyBody : JsVal :=
  .obj [("error", .obj [("message", .str "Invalid API key"), ("code", .num 401)])]

theorem sendChat_error_object_witness :
    sendChat "q" "k" (.ok 401 invalidKeyBody) = ChatResult.failure "Invalid API key" := by
  have h := sendChat_error_object "q" "k" 401 invalidKeyBody
    (.obj [("message", .str "Invalid API key"), ("code", .num 401)])
    (.str "Invalid API key") rfl rfl rfl
  simpa using h

def noContentBody : JsVal :=
  .obj [("choices", .arr [.obj [("message", .obj [("role", .str "assistant")])]])]

/-- Counterexample to claim C6 as stated: a body with no error object in
which choices[0].message exists but content is absent yields Success
(with undefined content), not the Failure the claim demands. -/
theorem sendChat_missing_content_cx :
    sendChat "q" "k" (.ok 200 noContentBody) = ChatResult.success JsVal.undef ∧
    (sendChat "q" "k" (.ok 200 noContentBody)).isFailure = false :=
  ⟨rfl, rfl⟩

/-- Claim C6 (amended): for every upstream body with no truthy error
object on which the member chain choices[0].message.content throws
(missing or non-indexable choices, or a null or absent message), the
handler returns failure with the non-empty runtime error message; no
fault propagates.  (A body where message exists but content is absent
instead yields Success with undefined content.) -/
theorem sendChat_malformed_failure (message apiKey : String) (st : Nat)
    (data e : JsVal) (msg : String)
    (he : getProp data "error" = .ok e) (hte : truthy e = false)
    (hx : extractReply data = .error msg) :
    sendChat message apiKey (.ok st data) = ChatResult.failure msg ∧ msg ≠ "" := by
  constructor
  · simp [sendChat, chatRequestHandler, relayBody, he, hte, hx]
  · exact extractReply_error_nonempty data msg hx

def emptyBody : JsVal := .obj []

theorem sendChat_malformed_failure_witness :
    sendChat "q" "k" (.ok 200 emptyBody) =
      ChatResult.failure "Cannot read properties of undefined (reading 0)" ∧
    "Cannot read properties of undefined (reading 0)" ≠ "" :=
  sendChat_malformed_failure "q" "k" 200 emptyBody JsVal.undef
    "Cannot read properties of undefined (reading 0)" rfl rfl rfl

/-- Claim C7: no local validation occurs: for every message (the empty
string included) and credential, the request is built and issued with
the message forwarded as-is in the single user-role message, and the
normalized result depends only on the upstream outcome, not on the
inputs. -/
theorem sendChat_no_local_validation (message apiKey m2 k2 : String) (o : FetchOutcome) :
    (chatRequestHandler message apiKey o).1 = buildRequest message apiKey ∧
    (buildRequest message apiKey).body =
      JsVal.obj [("model", .str "openai/gpt-3.5-turbo"),
                 ("messages", .arr [.obj [("role", .str "user"),
                                          ("content", .str message)]])] ∧
    sendChat message apiKey o = sendChat m2 k2 o :=
  ⟨rfl, rfl, rfl⟩

/-- Claim C8: a hotkey registration failure is reported (non-fatally)
and every non-hotkey path of the application behaves exactly as when
registration succeeds. -/
theorem hotkey_failure_nonfatal (e : AppEvent) (s : AppState)
    (h : e ≠ AppEvent.hotkey) :
    registrationLog false = ["Registration failed"] ∧
    appStep false e s = appStep true e s := by
  refine ⟨rfl, ?_⟩
  cases e
  case hotkey => exact absurd rfl h
  all_goals rfl

theorem hotkey_failure_nonfatal_witness :
    registrationLog false = ["Registration failed"] ∧
    appStep false AppEvent.closeWindow ⟨WinState.visible, false, false, false⟩ =
      appStep true AppEvent.closeWindow ⟨WinState.visible, false, false, false⟩ :=
  hotkey_failure_nonfatal AppEvent.closeWindow ⟨WinState.visible, false, false, false⟩
    (fun hc => AppEvent.noConfusion hc)

/-- Claim C9: the close-window bridge command unconditionally hides the
window in every state, never consults the quit-intent flag and never
terminates the process, even after quit intent has been recorded. -/
theorem closeWindowCmd_always_hides (s : AppState) :
    (closeWindowCmd s).win = WinState.hidden ∧
    (closeWindowCmd s).terminated = s.terminated ∧
    (closeWindowCmd s).isQuitting = s.isQuitting ∧
    (closeWindowCmd s).minimized = s.minimized :=
  ⟨rfl, rfl, rfl, rfl⟩

/-- Claim C10: for every upstream body with no truthy error object in
which choices[0].message exists as an object without a content field,
the handler returns success whose reply value is undefined, not a
failure. -/
theorem sendChat_message_without_content (message apiKey : String) (st : Nat)
    (data e ch c0 : JsVal) (fields : List (String × JsVal))
    (he : getProp data "error" = .ok e) (hte : truthy e = false)
    (hch : getProp data "choices" = .ok ch) (h0 : getIndex ch 0 = .ok c0)
    (hm : getProp c0 "message" = .ok (.obj fields))
    (hnc : lookupField fields "content" = .undef) :
    sendChat message apiKey (.ok st data) = ChatResult.success JsVal.undef := by
  have hcontent : getProp (JsVal.obj fields) "content" = Except.ok JsVal.undef := by
    simp [getProp, hnc]
  simp [sendChat, chatRequestHandler, relayBody, extractReply, he, hte, hch, h0, hm,
    hcontent]

def roleOnlyBody : JsVal :=
  .obj [("choices", .arr [.obj [("message", .obj [("role", .str "assistant")])]])]

theorem sendChat_message_without_content_witness :
    sendChat "q" "k" (.ok 200 roleOnlyBody) = ChatResult.success JsVal.undef :=
  sendChat_message_without_content "q" "k" 200 roleOnlyBody JsVal.undef
    (.arr [.obj [("message", .obj [("role", .str "assistant")])]])
    (.obj [("message", .obj [("role", .str "assistant")])])
    [("role", .str "assistant")] rfl rfl rfl rfl rfl rfl
